import Mathlib

/-
Shallow embedding of the AP-server data plane (Rust sources
`src/transmitter/gateway.rs` and `src/transmitter/transmission_handler.rs`),
together with theorems settling the specification claims about it.

Machine integers (`NodeId = u8`, `u64` indices, `usize` cursors) are modelled
as `Nat`; none of the verified code paths can overflow them on the inputs the
claims quantify over. Crossbeam/tokio channels are modelled as explicit
queues with a status flag; `try_send` appends when the channel is ready and
fails (Full/Disconnected) otherwise. A Rust `panic!` is modelled as an
explicit `panicked` outcome.
-/

namespace ApServer

/-- Node identifiers (`wg_2024::network::NodeId`, a small unsigned integer). -/
abbrev NodeId := Nat

/-- `wg_2024::network::SourceRoutingHeader`: the ordered route plus the
zero-based cursor of the hop that received the packet. -/
structure SourceRoutingHeader where
  hop_index : Nat
  hops : List NodeId
  deriving Repr, DecidableEq

/-- `wg_2024::packet::NackType`: the closed set of negative-acknowledgment
reasons. -/
inductive NackType where
  | ErrorInRouting (id : NodeId)
  | DestinationIsDrone
  | Dropped
  | UnexpectedRecipient (id : NodeId)
  deriving Repr, DecidableEq

/-- `wg_2024::packet::Fragment`. Of the wire fields, this repository reads
only `fragment_index` (in `Gateway::send_nack_packet_to_receiver`), so only
that field is modelled. -/
structure Fragment where
  fragment_index : Nat
  deriving Repr, DecidableEq

/-- `wg_2024::packet::Ack`. -/
structure Ack where
  fragment_index : Nat
  deriving Repr, DecidableEq

/-- `wg_2024::packet::Nack`. -/
structure Nack where
  fragment_index : Nat
  nack_type : NackType
  deriving Repr, DecidableEq

/-- `wg_2024::packet::PacketType`: the payload variant tag. The two
flooding/discovery variants carry data this repository never touches. -/
inductive PacketType where
  | MsgFragment (fragment : Fragment)
  | Ack (ack : Ack)
  | Nack (nack : Nack)
  | FloodRequest
  | FloodResponse
  deriving Repr, DecidableEq

/-- `wg_2024::packet::Packet`: routing header + session id + payload. -/
structure Packet where
  pack_type : PacketType
  routing_header : SourceRoutingHeader
  session_id : Nat
  deriving Repr, DecidableEq

/-- Status of a crossbeam channel as seen by `try_send`: `ready` accepts the
message, `full` and `disconnected` make `try_send` return an error. -/
inductive ChannelStatus where
  | ready
  | full
  | disconnected
  deriving Repr, DecidableEq

/-- A channel endpoint (`crossbeam_channel::Sender<Packet>`), modelled as the
queue of packets successfully sent into it plus its status. -/
structure Channel where
  status : ChannelStatus
  queue : List Packet
  deriving Repr, DecidableEq

/-- `Sender::try_send`: non-blocking; enqueues and reports success when the
channel is ready, otherwise leaves the queue untouched and reports failure. -/
def Channel.trySend (c : Channel) (p : Packet) : Channel × Bool :=
  match c.status with
  | ChannelStatus.ready => ({ c with queue := c.queue ++ [p] }, true)
  | _ => (c, false)

/-- Update the value stored under a key of an association list (the model of
in-place mutation of the channel a `HashMap` value points at). -/
def setAssoc {β : Type} : List (Nat × β) → Nat → β → List (Nat × β)
  | [], _, _ => []
  | (k', v') :: rest, k, v =>
      if k' = k then (k, v) :: rest else (k', v') :: setAssoc rest k v

/-- `Gateway` (src/transmitter/gateway.rs): the node id, the neighbor table
(`HashMap<NodeId, Sender<Packet>>`, modelled as an association list with
distinct keys), and the channel toward the local receiving logic. -/
structure Gateway where
  node_id : NodeId
  neighbors : List (NodeId × Channel)
  receiver_channel : Channel
  deriving Repr, DecidableEq

/-- Result of `Gateway::forward`: `Ok(())`, `Err(nack_type)`, or a `panic!`
(taken when the gateway-to-receiver channel is unavailable). -/
inductive ForwardResult where
  | ok
  | err (nack_type : NackType)
  | panicked
  deriving Repr, DecidableEq

/-- The cursor increment `packet.routing_header.hop_index += 1` at the top of
`Gateway::forward`. -/
def advanceCursor (p : Packet) : Packet :=
  { p with routing_header :=
      { p.routing_header with hop_index := p.routing_header.hop_index + 1 } }

/-- The lookup `packet.routing_header.hops.get(hop_index)` performed by
`Gateway::forward` after the cursor increment. -/
def intendedNextHop (p : Packet) : Option NodeId :=
  (advanceCursor p).routing_header.hops[(advanceCursor p).routing_header.hop_index]?

/-- Fragment index of the nack built by `send_nack_packet_to_receiver`: the
offending packet's index when it is a `MsgFragment`, else 0. -/
def nackFragmentIndex (p : Packet) : Nat :=
  match p.pack_type with
  | PacketType.MsgFragment fragment => fragment.fragment_index
  | _ => 0

/-- The nack packet built by `Gateway::send_nack_packet_to_receiver`: a
`Nack` payload, a reset routing header (`hop_index: 0, hops: vec![]`), and
the offending packet's session id. -/
def mkNackPacket (p : Packet) (nack_type : NackType) : Packet :=
  { pack_type := PacketType.Nack
      { fragment_index := nackFragmentIndex p, nack_type := nack_type }
  , routing_header := { hop_index := 0, hops := [] }
  , session_id := p.session_id }

/-- `Gateway::send_nack_packet_to_receiver`: `try_send` the synthesized nack
packet on the receiver channel; the boolean is `try_send`'s success. -/
def Gateway.sendNackPacketToReceiver (g : Gateway) (p : Packet)
    (nack_type : NackType) : Gateway × Bool :=
  let (c, sent) := g.receiver_channel.trySend (mkNackPacket p nack_type)
  ({ g with receiver_channel := c }, sent)

/-- `Gateway::forward`: advance the cursor, look up the next hop; forward to
a known neighbor (ignoring `try_send` failure), synthesize a routing-error
nack for an unknown neighbor (panicking if the receiver channel is down), or
deliver locally when the cursor moved past the end of the route (again
panicking if the receiver channel is down). -/
def Gateway.forward (g : Gateway) (packet0 : Packet) : Gateway × ForwardResult :=
  let packet := advanceCursor packet0
  match packet.routing_header.hops[packet.routing_header.hop_index]? with
  | some next_node =>
      match List.lookup next_node g.neighbors with
      | some next_node_channel =>
          let (chan', _) := next_node_channel.trySend packet
          ({ g with neighbors := setAssoc g.neighbors next_node chan' },
           ForwardResult.ok)
      | none =>
          let nack_type := NackType.ErrorInRouting next_node
          let (g', sent) := g.sendNackPacketToReceiver packet nack_type
          if sent then (g', ForwardResult.err nack_type)
          else (g', ForwardResult.panicked)
  | none =>
      let (c', sent) := g.receiver_channel.trySend packet
      if sent then ({ g with receiver_channel := c' }, ForwardResult.ok)
      else ({ g with receiver_channel := c' }, ForwardResult.panicked)

/-- `Command` (src/transmitter.rs): the scheduler's control protocol. -/
inductive Command where
  | Resend (fragment_index : Nat)
  | Confirmed
  deriving Repr, DecidableEq

/-- Record of a retry task spawned by `TransmissionHandler::run`: `id` is the
key the task was spawned and registered under (the `enumerate` index of the
packet within the current window slice), `fragment` is the absolute position
within `packets` of the packet the task's closure forwards
(`window_start + enumerate index` at spawn time). -/
structure FragTask where
  id : Nat
  fragment : Nat
  deriving Repr, DecidableEq

/-- `TransmissionHandler` (src/transmitter/transmission_handler.rs): the
fragment sequence, window state, the `fragment_channels` registry (key →
commands queued in that task's control channel), and the set of spawned,
still-running retry tasks (tokio tasks, tracked here as ghost state). The
fixed `timeout` and the channels' runtime handles carry no state the claims
depend on and are not modelled. -/
structure TransmissionHandler where
  packets : List Packet
  window_size : Nat
  window_start : Nat
  fragment_channels : List (Nat × List Command)
  tasks : List FragTask
  deriving Repr, DecidableEq

/-- `TransmissionHandler::new`: window size 1, window start 0, empty
registry, no tasks. -/
def newTransmissionHandler (packets : List Packet) : TransmissionHandler :=
  { packets := packets
  , window_size := 1
  , window_start := 0
  , fragment_channels := []
  , tasks := [] }

/-- Rust `slice::get(a..b)`: `Some` of the subslice when `a <= b <= len`,
`None` otherwise. -/
def sliceGetRange (xs : List Packet) (a b : Nat) : Option (List Packet) :=
  if a ≤ b ∧ b ≤ xs.length then some ((xs.drop a).take (b - a)) else none

/-- The window slice computed at the top of `TransmissionHandler::run`:
`self.packets.get(window_start .. min(len, window_start + window_size))`. -/
def readySlice (s : TransmissionHandler) : Option (List Packet) :=
  sliceGetRange s.packets s.window_start
    (min s.packets.length (s.window_start + s.window_size))

/-- One iteration of the admission `for` loop of `run` at enumerate index
`fragment_index`: if the registry has no entry under that key, register a
fresh control channel and spawn the retry task for the slice packet at that
position (absolute position `window_start + fragment_index`). -/
def admitOne (s : TransmissionHandler) (fragment_index : Nat) :
    TransmissionHandler :=
  match List.lookup fragment_index s.fragment_channels with
  | some _ => s
  | none =>
      { s with
        fragment_channels := s.fragment_channels ++ [(fragment_index, [])]
      , tasks := s.tasks ++
          [{ id := fragment_index, fragment := s.window_start + fragment_index }] }

/-- The full admission `for` loop of `run`: `enumerate` yields the indices
`0, ..., ready.len() - 1` of the window slice. -/
def admitWindow (s : TransmissionHandler) (ready : List Packet) :
    TransmissionHandler :=
  (List.range ready.length).foldl admitOne s

/-- `TransmissionHandler::on_ack_received`: advance `window_start` by one. -/
def onAckReceived (s : TransmissionHandler) : TransmissionHandler :=
  { s with window_start := s.window_start + 1 }

/-- The command-dispatch arm of `run`'s `select`: `None` (channel closed)
does nothing; `Confirmed` calls `on_ack_received`; `Resend(i)` forwards the
command into the registered task channel for `i`, or drops it when no entry
exists. -/
def handleCommand (s : TransmissionHandler) : Option Command → TransmissionHandler
  | none => s
  | some Command.Confirmed => onAckReceived s
  | some (Command.Resend fragment_index) =>
      match List.lookup fragment_index s.fragment_channels with
      | some q =>
          let queued := q ++ [Command.Resend fragment_index]
          { s with fragment_channels :=
              setAssoc s.fragment_channels fragment_index queued }
      | none => s

/-- Outcome of one iteration of `run`'s loop: `exited` models the `break`
taken when the slice lookup fails, `looping s` continues with state `s`. -/
inductive RunStep where
  | exited
  | looping (s : TransmissionHandler)
  deriving Repr, DecidableEq

/-- One iteration of `TransmissionHandler::run`'s loop: compute the window
slice; on failure `break`; otherwise run the admission loop and then block
on the command channel, handling the received command (`received` is what
`recv` returned). -/
def runStep (s : TransmissionHandler) (received : Option Command) : RunStep :=
  match readySlice s with
  | none => RunStep.exited
  | some ready => RunStep.looping (handleCommand (admitWindow s ready) received)

/-- Project the state out of a non-exited step result (defaulting to `d`). -/
def RunStep.stateD (r : RunStep) (d : TransmissionHandler) : TransmissionHandler :=
  match r with
  | RunStep.exited => d
  | RunStep.looping s => s

/-
Concrete sample states used by witnesses and counterexamples.
-/

/-- A gateway for node 10 with an empty neighbor table and a ready receiver
channel (the configuration of most of the repository's own unit tests). -/
def gwReadyEmpty : Gateway :=
  { node_id := 10
  , neighbors := []
  , receiver_channel := { status := ChannelStatus.ready, queue := [] } }

/-- An ack packet with route `[10, 1, 2]` and entry cursor 0. -/
def pktThreeHops : Packet :=
  { pack_type := PacketType.Ack { fragment_index := 0 }
  , routing_header := { hop_index := 0, hops := [10, 1, 2] }
  , session_id := 7 }

/-- An ack packet whose route is the single hop `[10]`, entry cursor 0. -/
def pktSoleHop : Packet :=
  { pack_type := PacketType.Ack { fragment_index := 0 }
  , routing_header := { hop_index := 0, hops := [10] }
  , session_id := 7 }

/-- A data-fragment packet with fragment index 4. -/
def pktFragFour : Packet :=
  { pack_type := PacketType.MsgFragment { fragment_index := 4 }
  , routing_header := { hop_index := 0, hops := [10, 1, 2] }
  , session_id := 9 }

/-
Claim theorems.
-/

/-- C1: forwarding first advances the cursor from `c` to `c + 1`; when
`c + 1` equals the route length the (cursor-advanced) packet is delivered to
the local receiving channel and the call returns success; when `c + 1` is
still within the route, the intended next hop is exactly `route[c + 1]`.
The receiver channel is assumed available, as the spec makes its failure a
fatal condition rather than ordinary behavior. -/
theorem forward_advances_cursor_then_delivers_or_routes
    (g : Gateway) (p : Packet)
    (hready : g.receiver_channel.status = ChannelStatus.ready) :
    (advanceCursor p).routing_header.hop_index = p.routing_header.hop_index + 1
    ∧ (p.routing_header.hop_index + 1 = p.routing_header.hops.length →
        (g.forward p).2 = ForwardResult.ok
        ∧ (g.forward p).1.receiver_channel.queue
            = g.receiver_channel.queue ++ [advanceCursor p])
    ∧ (∀ h2 : p.routing_header.hop_index + 1 < p.routing_header.hops.length,
        intendedNextHop p
          = some (p.routing_header.hops.get ⟨p.routing_header.hop_index + 1, h2⟩)) := by
  refine ⟨rfl, ?_, ?_⟩
  · intro hlen
    have hnone : (advanceCursor p).routing_header.hops[(advanceCursor p).routing_header.hop_index]? = none := by
      apply List.getElem?_eq_none
      simp [advanceCursor]
      omega
    constructor <;>
      simp [Gateway.forward, hnone, Channel.trySend, hready]
  · intro h2
    have h2' : (advanceCursor p).routing_header.hop_index < (advanceCursor p).routing_header.hops.length := by
      simpa [advanceCursor] using h2
    simp [intendedNextHop, advanceCursor, List.getElem?_eq_getElem h2', List.get_eq_getElem]

/-- Witness for C1 at the gateway of node 10 and the sole-hop route `[10]`
with cursor 0 (end-to-end scenario 3 of the spec). -/
theorem forward_advances_cursor_then_delivers_or_routes_witness :
    (advanceCursor pktSoleHop).routing_header.hop_index
        = pktSoleHop.routing_header.hop_index + 1
    ∧ (pktSoleHop.routing_header.hop_index + 1 = pktSoleHop.routing_header.hops.length →
        (gwReadyEmpty.forward pktSoleHop).2 = ForwardResult.ok
        ∧ (gwReadyEmpty.forward pktSoleHop).1.receiver_channel.queue
            = gwReadyEmpty.receiver_channel.queue ++ [advanceCursor pktSoleHop])
    ∧ (∀ h2 : pktSoleHop.routing_header.hop_index + 1 < pktSoleHop.routing_header.hops.length,
        intendedNextHop pktSoleHop
          = some (pktSoleHop.routing_header.hops.get
              ⟨pktSoleHop.routing_header.hop_index + 1, h2⟩)) :=
  forward_advances_cursor_then_delivers_or_routes gwReadyEmpty pktSoleHop rfl

/-- C2: when the next hop exists in the route but is not a key of the
neighbor table, `forward` leaves every neighbor channel untouched, returns
`Err(ErrorInRouting(nextHop))`, and enqueues exactly one nack packet on the
local receiving channel, all in the same call. -/
theorem forward_unknown_neighbor_nacks
    (g : Gateway) (p : Packet) (next_node : NodeId)
    (hnext : intendedNextHop p = some next_node)
    (hmiss : List.lookup next_node g.neighbors = none)
    (hready : g.receiver_channel.status = ChannelStatus.ready) :
    (g.forward p).2 = ForwardResult.err (NackType.ErrorInRouting next_node)
    ∧ (g.forward p).1.neighbors = g.neighbors
    ∧ (g.forward p).1.receiver_channel.queue
        = g.receiver_channel.queue
            ++ [mkNackPacket (advanceCursor p) (NackType.ErrorInRouting next_node)] := by
  have hs : (advanceCursor p).routing_header.hops[(advanceCursor p).routing_header.hop_index]? = some next_node := hnext
  refine ⟨?_, ?_, ?_⟩ <;>
    simp [Gateway.forward, hs, hmiss, Gateway.sendNackPacketToReceiver,
      Channel.trySend, hready]

/-- Witness for C2: node 10 with an empty neighbor table forwarding along
`[10, 1, 2]` from cursor 0 (end-to-end scenario 1 of the spec). -/
theorem forward_unknown_neighbor_nacks_witness :
    (gwReadyEmpty.forward pktThreeHops).2
        = ForwardResult.err (NackType.ErrorInRouting 1)
    ∧ (gwReadyEmpty.forward pktThreeHops).1.neighbors = gwReadyEmpty.neighbors
    ∧ (gwReadyEmpty.forward pktThreeHops).1.receiver_channel.queue
        = gwReadyEmpty.receiver_channel.queue
            ++ [mkNackPacket (advanceCursor pktThreeHops) (NackType.ErrorInRouting 1)] :=
  forward_unknown_neighbor_nacks gwReadyEmpty pktThreeHops 1 rfl rfl rfl

/-- C3: the nack packet synthesized by `send_nack_packet_to_receiver` is
what gets enqueued on the receiver channel; it carries a reset routing
header (cursor 0, empty hop list), the offending packet's fragment index
when that packet is a data fragment, and fragment index 0 for every other
packet variant. -/
theorem nack_packet_fragment_index_and_reset_route
    (g : Gateway) (p : Packet) (nack_type : NackType)
    (hready : g.receiver_channel.status = ChannelStatus.ready) :
    (g.sendNackPacketToReceiver p nack_type).1.receiver_channel.queue
        = g.receiver_channel.queue ++ [mkNackPacket p nack_type]
    ∧ (mkNackPacket p nack_type).routing_header = { hop_index := 0, hops := [] }
    ∧ (∀ fragment, p.pack_type = PacketType.MsgFragment fragment →
        (mkNackPacket p nack_type).pack_type
          = PacketType.Nack
              { fragment_index := fragment.fragment_index, nack_type := nack_type })
    ∧ ((∀ fragment, p.pack_type ≠ PacketType.MsgFragment fragment) →
        (mkNackPacket p nack_type).pack_type
          = PacketType.Nack { fragment_index := 0, nack_type := nack_type }) := by
  refine ⟨?_, rfl, ?_, ?_⟩
  · simp [Gateway.sendNackPacketToReceiver, Channel.trySend, hready]
  · intro fragment hf
    simp [mkNackPacket, nackFragmentIndex, hf]
  · intro hother
    cases hp : p.pack_type with
    | MsgFragment fragment => exact absurd hp (hother fragment)
    | _ => simp [mkNackPacket, nackFragmentIndex, hp]

/-- Witness for C3 at a data-fragment packet with fragment index 4 and
reason `Dropped`. -/
theorem nack_packet_fragment_index_and_reset_route_witness :
    (gwReadyEmpty.sendNackPacketToReceiver pktFragFour NackType.Dropped).1.receiver_channel.queue
        = gwReadyEmpty.receiver_channel.queue ++ [mkNackPacket pktFragFour NackType.Dropped]
    ∧ (mkNackPacket pktFragFour NackType.Dropped).routing_header
        = { hop_index := 0, hops := [] }
    ∧ (∀ fragment, pktFragFour.pack_type = PacketType.MsgFragment fragment →
        (mkNackPacket pktFragFour NackType.Dropped).pack_type
          = PacketType.Nack
              { fragment_index := fragment.fragment_index, nack_type := NackType.Dropped })
    ∧ ((∀ fragment, pktFragFour.pack_type ≠ PacketType.MsgFragment fragment) →
        (mkNackPacket pktFragFour NackType.Dropped).pack_type
          = PacketType.Nack { fragment_index := 0, nack_type := NackType.Dropped }) :=
  nack_packet_fragment_index_and_reset_route gwReadyEmpty pktFragFour NackType.Dropped rfl

/-- A gateway for node 10 whose single neighbor 1 has a full outbound
channel, so `try_send` toward it fails. -/
def gwNeighborFull : Gateway :=
  { node_id := 10
  , neighbors := [(1, { status := ChannelStatus.full, queue := [] })]
  , receiver_channel := { status := ChannelStatus.ready, queue := [] } }

/-- C9: when the next hop is a known neighbor, `forward` performs one
non-blocking `try_send` of the cursor-advanced packet on that neighbor's
channel and returns success unconditionally; a ready channel receives the
packet, while a full or disconnected channel is left untouched — the packet
is dropped without any signal to the receiver channel or the caller. -/
theorem forward_known_neighbor_silent_loss
    (g : Gateway) (p : Packet) (next_node : NodeId) (chan : Channel)
    (hnext : intendedNextHop p = some next_node)
    (hchan : List.lookup next_node g.neighbors = some chan) :
    (g.forward p).2 = ForwardResult.ok
    ∧ (g.forward p).1.receiver_channel = g.receiver_channel
    ∧ (g.forward p).1.neighbors
        = setAssoc g.neighbors next_node (chan.trySend (advanceCursor p)).1
    ∧ (chan.status = ChannelStatus.ready →
        (chan.trySend (advanceCursor p)).1.queue = chan.queue ++ [advanceCursor p])
    ∧ (chan.status ≠ ChannelStatus.ready →
        (chan.trySend (advanceCursor p)).1 = chan) := by
  have hs : (advanceCursor p).routing_header.hops[(advanceCursor p).routing_header.hop_index]? = some next_node := hnext
  refine ⟨?_, ?_, ?_, ?_, ?_⟩
  · simp [Gateway.forward, hs, hchan]
  · simp [Gateway.forward, hs, hchan]
  · simp [Gateway.forward, hs, hchan]
  · intro hst
    simp [Channel.trySend, hst]
  · intro hst
    cases hc : chan.status with
    | ready => exact absurd hc hst
    | full => simp [Channel.trySend, hc]
    | disconnected => simp [Channel.trySend, hc]

/-- Witness for C9 at a neighbor whose channel is full: the forward still
returns success, the neighbor's queue stays empty, and no nack is produced. -/
theorem forward_known_neighbor_silent_loss_witness :
    (gwNeighborFull.forward pktThreeHops).2 = ForwardResult.ok
    ∧ (gwNeighborFull.forward pktThreeHops).1.receiver_channel
        = gwNeighborFull.receiver_channel
    ∧ (gwNeighborFull.forward pktThreeHops).1.neighbors
        = setAssoc gwNeighborFull.neighbors 1
            (Channel.trySend { status := ChannelStatus.full, queue := [] }
              (advanceCursor pktThreeHops)).1
    ∧ (ChannelStatus.full = ChannelStatus.ready →
        (Channel.trySend { status := ChannelStatus.full, queue := [] }
            (advanceCursor pktThreeHops)).1.queue
          = ([] : List Packet) ++ [advanceCursor pktThreeHops])
    ∧ (ChannelStatus.full ≠ ChannelStatus.ready →
        (Channel.trySend { status := ChannelStatus.full, queue := [] }
            (advanceCursor pktThreeHops)).1
          = { status := ChannelStatus.full, queue := [] }) :=
  forward_known_neighbor_silent_loss gwNeighborFull pktThreeHops 1
    { status := ChannelStatus.full, queue := [] } rfl rfl

/-- C10: every nack packet the gateway synthesizes keeps the session id of
the packet that triggered it, even though its route is left empty. -/
theorem nack_packet_preserves_session_id (p : Packet) (nack_type : NackType) :
    (mkNackPacket p nack_type).session_id = p.session_id
    ∧ (mkNackPacket p nack_type).routing_header.hops = [] :=
  ⟨rfl, rfl⟩

/-- An ack packet whose route `[1, 2]` does not contain node 10 at all, with
entry cursor 1: node 10 is not a valid forwarding point for it. -/
def pktForeignRoute : Packet :=
  { pack_type := PacketType.Ack { fragment_index := 0 }
  , routing_header := { hop_index := 1, hops := [1, 2] }
  , session_id := 7 }

/-- C6 counterexample: node 10 holds a packet whose route `[1, 2]` never
mentions it (cursor 1), so it is not a valid forwarding point; yet `forward`
returns success, does not return `Err(UnexpectedRecipient(10))`, and hands
the packet itself — not a nack — to the local receiving channel. The
unexpected-recipient branch of the source is commented out. -/
theorem forward_unexpected_recipient_counterexample :
    (gwReadyEmpty.forward pktForeignRoute).2 = ForwardResult.ok
    ∧ (gwReadyEmpty.forward pktForeignRoute).2
        ≠ ForwardResult.err (NackType.UnexpectedRecipient gwReadyEmpty.node_id)
    ∧ (gwReadyEmpty.forward pktForeignRoute).1.receiver_channel.queue
        = [advanceCursor pktForeignRoute]
    ∧ (∀ q ∈ (gwReadyEmpty.forward pktForeignRoute).1.receiver_channel.queue,
        q.pack_type = PacketType.Ack { fragment_index := 0 }) := by
  decide

/-- C6 amended: `Gateway::forward` never reports an unexpected-recipient
condition: no execution path returns `Err(UnexpectedRecipient(_))` (the
check is commented out in the source and delegated to the receiver logic);
a cursor that moves past the route end is always treated as local delivery. -/
theorem forward_never_reports_unexpected_recipient
    (g : Gateway) (p : Packet) (id : NodeId) :
    (g.forward p).2 ≠ ForwardResult.err (NackType.UnexpectedRecipient id) := by
  unfold Gateway.forward
  cases hnh : (advanceCursor p).routing_header.hops[(advanceCursor p).routing_header.hop_index]? with
  | none =>
      cases hst : g.receiver_channel.status <;>
        simp [hnh, Channel.trySend, hst]
  | some next_node =>
      cases hl : List.lookup next_node g.neighbors with
      | none =>
          cases hst : g.receiver_channel.status <;>
            simp [hnh, hl, Gateway.sendNackPacketToReceiver, Channel.trySend, hst]
      | some chan => simp [hnh, hl]

/-
Helper lemmas about the scheduler step.
-/

/-- One admission iteration never touches `window_start`. -/
theorem admitOne_window_start (s : TransmissionHandler) (i : Nat) :
    (admitOne s i).window_start = s.window_start := by
  unfold admitOne
  cases List.lookup i s.fragment_channels <;> rfl

/-- Folding admission iterations never touches `window_start`. -/
theorem foldl_admitOne_window_start (l : List Nat) (s : TransmissionHandler) :
    (l.foldl admitOne s).window_start = s.window_start := by
  induction l generalizing s with
  | nil => rfl
  | cons a l ih => rw [List.foldl_cons, ih, admitOne_window_start]

/-- The admission loop never touches `window_start`. -/
theorem admitWindow_window_start (s : TransmissionHandler) (ready : List Packet) :
    (admitWindow s ready).window_start = s.window_start :=
  foldl_admitOne_window_start _ _

/-- The slice lookup of `run` fails exactly when `window_start` has moved
past the end of the fragment sequence. -/
theorem readySlice_eq_none_iff (s : TransmissionHandler) :
    readySlice s = none ↔ s.packets.length < s.window_start := by
  unfold readySlice sliceGetRange
  by_cases h : s.window_start ≤ min s.packets.length (s.window_start + s.window_size)
      ∧ min s.packets.length (s.window_start + s.window_size) ≤ s.packets.length
  · rw [if_pos h]
    simp only [reduceCtorEq, false_iff]
    omega
  · rw [if_neg h]
    simp only [true_iff]
    omega

/-
Scheduler claim theorems.
-/

/-- Packets of a two-fragment transmission (fragment indices 0 and 1). -/
def fragPkt0 : Packet :=
  { pack_type := PacketType.MsgFragment { fragment_index := 0 }
  , routing_header := { hop_index := 0, hops := [10, 1, 2] }
  , session_id := 7 }

/-- Second fragment of the two-fragment transmission. -/
def fragPkt1 : Packet :=
  { pack_type := PacketType.MsgFragment { fragment_index := 1 }
  , routing_header := { hop_index := 0, hops := [10, 1, 2] }
  , session_id := 7 }

/-- A freshly constructed scheduler over the two fragments. -/
def schedTwo0 : TransmissionHandler := newTransmissionHandler [fragPkt0, fragPkt1]

/-- The scheduler state after its first loop iteration processed one
`Confirmed` command. -/
def schedTwo1 : TransmissionHandler :=
  (runStep schedTwo0 (some Command.Confirmed)).stateD schedTwo0

/-- The scheduler state after a second iteration processed `Resend(1)`. -/
def schedTwo2 : TransmissionHandler :=
  (runStep schedTwo1 (some (Command.Resend 1))).stateD schedTwo1

/-- C5: one loop iteration of `run` that receives a `Confirmed` command and
keeps looping advances `window_start` by exactly one, whatever the window,
registry and task population were. -/
theorem confirmed_advances_window_start_by_one
    (s s' : TransmissionHandler)
    (h : runStep s (some Command.Confirmed) = RunStep.looping s') :
    s'.window_start = s.window_start + 1 := by
  unfold runStep at h
  cases hr : readySlice s with
  | none => rw [hr] at h; exact absurd h (by simp)
  | some ready =>
      rw [hr] at h
      have hs' : handleCommand (admitWindow s ready) (some Command.Confirmed) = s' :=
        RunStep.looping.inj h
      rw [← hs']
      simp [handleCommand, onAckReceived, admitWindow_window_start]

/-- Witness for C5: the fresh two-fragment scheduler processes one
`Confirmed` and its `window_start` moves from 0 to 1. -/
theorem confirmed_advances_window_start_by_one_witness :
    schedTwo1.window_start = schedTwo0.window_start + 1 :=
  confirmed_advances_window_start_by_one schedTwo0 schedTwo1 (by decide)

/-- C4 (failing run): on two fragments with window size 1, after one
`Confirmed` the window is `[1, 2)`, yet the registry's only key is the
slice-relative 0 (the `enumerate` index), the only task is fragment 0's, and
the next admission spawns nothing for fragment 1 — the registry key neither
equals the task's absolute fragment index nor lies in the window, and the
admissible index 1 gets no task. -/
theorem window_admission_uses_relative_index :
    runStep schedTwo0 (some Command.Confirmed) = RunStep.looping schedTwo1
    ∧ schedTwo1.window_start = 1
    ∧ schedTwo1.packets.length = 2
    ∧ runStep schedTwo1 (some (Command.Resend 1)) = RunStep.looping schedTwo2
    ∧ schedTwo2.tasks = [{ id := 0, fragment := 0 }]
    ∧ schedTwo2.fragment_channels = [(0, [])]
    ∧ (∀ t ∈ schedTwo2.tasks, t.fragment < schedTwo1.window_start)
    ∧ (∀ t ∈ schedTwo2.tasks, t.fragment ≠ 1) := by
  decide

/-- C7 (failing run): on one fragment with window size 1, after the
`Confirmed` that retires fragment 0 the registry still holds the entry for
key 0 — with an empty command queue, showing the scheduler also never
forwarded the confirmation to the task — so the entry is not removed when
the fragment's task is supposed to terminate. -/
theorem registry_entry_not_removed_after_confirm :
    runStep (newTransmissionHandler [fragPkt0]) (some Command.Confirmed)
        = RunStep.looping
            ((runStep (newTransmissionHandler [fragPkt0]) (some Command.Confirmed)).stateD
              (newTransmissionHandler [fragPkt0]))
    ∧ ((runStep (newTransmissionHandler [fragPkt0]) (some Command.Confirmed)).stateD
          (newTransmissionHandler [fragPkt0])).window_start = 1
    ∧ List.lookup 0
        ((runStep (newTransmissionHandler [fragPkt0]) (some Command.Confirmed)).stateD
            (newTransmissionHandler [fragPkt0])).fragment_channels = some []
    ∧ ((runStep (newTransmissionHandler [fragPkt0]) (some Command.Confirmed)).stateD
          (newTransmissionHandler [fragPkt0])).tasks = [{ id := 0, fragment := 0 }] := by
  decide

/-- C8 counterexample: after one fragment is confirmed, `window_start`
equals the sequence length, the admissible range is empty — yet the loop
does not exit: it admits nothing and blocks for one more command. -/
theorem run_loop_does_not_exit_at_sequence_end :
    ((runStep (newTransmissionHandler [fragPkt0]) (some Command.Confirmed)).stateD
        (newTransmissionHandler [fragPkt0])).window_start
      = ((runStep (newTransmissionHandler [fragPkt0]) (some Command.Confirmed)).stateD
          (newTransmissionHandler [fragPkt0])).packets.length
    ∧ readySlice
        ((runStep (newTransmissionHandler [fragPkt0]) (some Command.Confirmed)).stateD
          (newTransmissionHandler [fragPkt0])) = some []
    ∧ runStep
        ((runStep (newTransmissionHandler [fragPkt0]) (some Command.Confirmed)).stateD
          (newTransmissionHandler [fragPkt0])) (some Command.Confirmed)
      ≠ RunStep.exited := by
  decide

/-- C8 amended: the loop's `break` is taken exactly when `window_start`
exceeds the sequence length (the slice lookup fails); at `window_start` equal
to the length the slice is `Some` of the empty slice, so the loop stops
spawning but still blocks for one more command before it can exit. -/
theorem run_step_exit_boundary (s : TransmissionHandler) (received : Option Command) :
    (runStep s received = RunStep.exited ↔ s.packets.length < s.window_start)
    ∧ readySlice { s with window_start := s.packets.length } = some [] := by
  constructor
  · cases hr : readySlice s with
    | none =>
        have hlt := (readySlice_eq_none_iff s).mp hr
        simp [runStep, hr, hlt]
    | some ready =>
        have hge : ¬ s.packets.length < s.window_start := by
          intro hlt
          rw [(readySlice_eq_none_iff s).mpr hlt] at hr
          exact Option.noConfusion hr
        simp [runStep, hr, hge]
  · unfold readySlice sliceGetRange
    have hmin : min s.packets.length (s.packets.length + s.window_size)
        = s.packets.length := by omega
    simp [hmin]

end ApServer
